import Mathlib

/-!
Verification of the geotif GRD-image pipeline (`src/image.py`, driver
`geotif.py`).

Shallow embedding conventions:
* numpy floating-point arrays are modelled as `List (List ℚ)` (row-major,
  numpy shape `(rows, cols)`), with floating-point arithmetic modelled as
  exact rational arithmetic; the decibel output of calibration, which
  applies `log10`, lives in `ℝ`.
* numpy dtypes are tracked by a `Dtype` tag where the spec talks about them
  (the `astype(np.float32)` cast in `normalize`).
* Python exceptions become `Except Err` / `Option Err` results; the error
  kinds follow the spec's error taxonomy (`InvalidArgument`,
  `InvalidState`, `FormatError`), all of which are `ValueError` in the
  Python source.
-/

/-- Error kinds of the pipeline (spec §7); every one is a Python
`ValueError` in the source. `badDate` is the `ValueError` raised by
`datetime.strptime` on a regex-matched but calendar-invalid timestamp. -/
inductive Err where
  | invalidArgument
  | invalidState
  | formatError
  | badDate
  deriving DecidableEq, Repr

/-- numpy dtype tag, as far as the spec's claims need it. -/
inductive Dtype where
  | float32
  | float64
  deriving DecidableEq, Repr

/-- A 2-D numpy array: row-major rational samples plus a dtype tag. -/
structure NDArray where
  rows : List (List ℚ)
  dtype : Dtype
  deriving DecidableEq, Repr

/-- `np.min` on a nonempty list of samples (`foldl min` over the tail).
The `[]` case returns `0`; numpy would raise there, and every theorem that
uses the minimum carries a nonemptiness hypothesis. -/
def listMin : List ℚ → ℚ
  | [] => 0
  | x :: xs => xs.foldl min x

/-- `np.max` on a nonempty list of samples. -/
def listMax : List ℚ → ℚ
  | [] => 0
  | x :: xs => xs.foldl max x

/-- `np.min` over a 2-D array (numpy reduces over all elements). -/
def arrMin (xs : List (List ℚ)) : ℚ := listMin xs.flatten

/-- `np.max` over a 2-D array. -/
def arrMax (xs : List (List ℚ)) : ℚ := listMax xs.flatten

/-! ## Normalizer (`GRDImage.normalize`, image.py lines 48-82) -/

/-- The elementwise `"0-1"` rescaling formula from `normalize`. -/
def norm01 (mn mx x : ℚ) : ℚ := (x - mn) / (mx - mn)

/-- The elementwise `"-1-1"` rescaling formula from `normalize`. -/
def normM11 (mn mx x : ℚ) : ℚ := 2 * (x - mn) / (mx - mn) - 1

/-- The elementwise `"0-255"` rescaling formula from `normalize`. -/
def norm0255 (mn mx x : ℚ) : ℚ := 255 * (x - mn) / (mx - mn)

/-- `GRDImage.normalize` (image.py lines 48-82): dispatch on the
`output_format` selector, rescale with the array's own min/max, cast the
result to `float32`.  An unrecognized selector raises `ValueError`
(the spec's `InvalidArgument`).  Note: on a constant array the Python code
divides by zero producing NaN/Inf samples (flagged open in the spec);
every range claim below carries a `max > min` hypothesis, so the exact
value of `q / 0` in the model is never relied on. -/
def normalizeArray (output_format : String) (a : NDArray) : Except Err NDArray :=
  let mn := arrMin a.rows
  let mx := arrMax a.rows
  if output_format = "0-1" then
    .ok ⟨a.rows.map (List.map (norm01 mn mx)), .float32⟩
  else if output_format = "-1-1" then
    .ok ⟨a.rows.map (List.map (normM11 mn mx)), .float32⟩
  else if output_format = "0-255" then
    .ok ⟨a.rows.map (List.map (norm0255 mn mx)), .float32⟩
  else
    .error .invalidArgument

/-! ## Calibrator (`GRDImage.calibrate`, image.py lines 84-136) -/

/-- `sigma0 = self.calibration_factor * np.abs(self.data) ** 2`
(image.py line 126), elementwise. -/
def sigma0 (cf x : ℚ) : ℚ := cf * |x| ^ 2

/-- `sigma0_db = 10 * np.log10(sigma0 + 1e-10)` (image.py line 127),
elementwise; `np.log10` is modelled as the exact real base-10 logarithm. -/
noncomputable def sigma0_db (cf x : ℚ) : ℝ :=
  10 * Real.logb 10 (((sigma0 cf x + 1e-10 : ℚ) : ℝ))

/-- The range-adjustment step of `calibrate` (image.py lines 117-121):
divide by 255 when all values are nonnegative and the max exceeds 1,
else apply `(x + 1) / 2` when some value is negative, else leave the
array alone. -/
def calibAdjust (xs : List (List ℚ)) : List (List ℚ) :=
  if 0 ≤ arrMin xs ∧ 1 < arrMax xs then
    xs.map (List.map (fun x => x / 255))
  else if arrMin xs < 0 then
    xs.map (List.map (fun x => (x + 1) / 2))
  else
    xs

/-- `GRDImage.calibrate` (image.py lines 110-129) as a function of the
current data and the calibration factor: first the guard
`np.amin < 0 or np.amax > 1` raises `ValueError` (the spec's
`InvalidState`); then the range adjustment; then the `sigma0_db` formula
replaces every sample. -/
noncomputable def calibrateArray (cf : ℚ) (xs : List (List ℚ)) :
    Except Err (List (List ℝ)) :=
  if arrMin xs < 0 ∨ 1 < arrMax xs then
    .error .invalidState
  else
    .ok ((calibAdjust xs).map (List.map (sigma0_db cf)))

/-! ## PNG encoding (`GRDImage.save_as_png`, image.py lines 158-174) -/

/-- A written PNG file: its 8-bit pixel rows and whether it was written
in PIL mode `"L"` (single-channel grayscale). -/
structure PNGFile where
  pixels : List (List ℕ)
  grayscale : Bool
  deriving DecidableEq, Repr

/-- The pixel transform of `save_as_png` (image.py line 167):
`(self.data * 255).clip(0, 255).astype(np.uint8)`; the float-to-uint8
cast truncates, and the clipped value is nonnegative, so it is the floor. -/
def toUint8 (x : ℚ) : ℕ := (⌊min 255 (max 0 (x * 255))⌋).toNat

/-- `GRDImage.save_as_png` (image.py lines 158-174): scale by 255, clip
to `[0,255]`, cast to `uint8`, and hand the 2-D array to the PNG encoder
in grayscale mode `"L"`. -/
def save_as_png (rows : List (List ℚ)) : PNGFile :=
  ⟨rows.map (List.map toUint8), true⟩

/-- `save_as_png` on the real-valued (post-calibration, decibel) data:
the same transform with the floor taken in `ℝ`. -/
noncomputable def toUint8R (x : ℝ) : ℕ := (⌊min 255 (max 0 (x * 255))⌋).toNat

/-- `save_as_png` acting on the real-valued array held in `data` after
calibration. -/
noncomputable def save_as_pngR (rows : List (List ℝ)) : PNGFile :=
  ⟨rows.map (List.map toUint8R), true⟩

/-- What the C9 claim says the encoder stage does to the array: clip to
`[0,255]` and cast to `uint8` (no 255 scaling).  Stated from the spec's
words for comparison with `toUint8`. -/
def specClipPixel (x : ℚ) : ℕ := (⌊min 255 (max 0 x)⌋).toNat

/-! ## Downsampler (`GRDImage.downsample`, image.py lines 138-156)

`downsample` builds a PIL image from `self.data` (an unused 8-bit rescaled
copy `image_data` is also computed and discarded, image.py line 148, a
defect the spec flags), calls `Image.thumbnail(size)` and returns
`np.array(image)` WITHOUT assigning `self.data`.  The size computation is
PIL's `Image.thumbnail`: keep the image if it already fits the bound,
otherwise clamp one side to the bound and round the other to the aspect
ratio, never below 1.  PIL's float divisions are modelled as exact
rational divisions. -/

/-- PIL's `round_aspect(number, key)`:
`max(min(math.floor(number), math.ceil(number), key=key), 1)` —
pick floor or ceil, whichever has the smaller `key` (floor on a tie,
as Python's `min` keeps the first argument), then at least 1. -/
def roundAspect (q : ℚ) (err : ℤ → ℚ) : ℤ :=
  max (if err ⌊q⌋ ≤ err ⌈q⌉ then ⌊q⌋ else ⌈q⌉) 1

/-- PIL `Image.thumbnail` size selection for a `w × h` image under the
bound `(bw, bh)` (width, height).  Returns the size `(w', h')` of the
resulting image. -/
def thumbnailSize (w h bw bh : ℕ) : ℕ × ℕ :=
  if w ≤ bw ∧ h ≤ bh then (w, h)
  else if (w : ℚ) / (h : ℚ) ≤ (bw : ℚ) / (bh : ℚ) then
    ((roundAspect ((bh : ℚ) * ((w : ℚ) / (h : ℚ)))
      (fun n => |(w : ℚ) / (h : ℚ) - (n : ℚ) / (bh : ℚ)|)).toNat, bh)
  else
    (bw, (roundAspect ((bw : ℚ) / ((w : ℚ) / (h : ℚ)))
      (fun n => if n = 0 then 0
        else |(w : ℚ) / (h : ℚ) - (bw : ℚ) / (n : ℚ)|)).toNat)

/-- numpy shape `(rows, cols)` of a (rectangular) 2-D array. -/
def shape (rows : List (List α)) : ℕ × ℕ := (rows.length, (rows.headD []).length)

/-- The numpy shape of the array `downsample` returns:
`Image.fromarray` reads width = cols and height = rows, `thumbnail`
shrinks that size, and `np.array` flips back to `(rows, cols)`. -/
def downsampleShape (rows : List (List ℝ)) (size : ℕ × ℕ) : ℕ × ℕ :=
  ((thumbnailSize (shape rows).2 (shape rows).1 size.1 size.2).2,
   (thumbnailSize (shape rows).2 (shape rows).1 size.1 size.2).1)

/-! ## Filename metadata (`GRDImage.extract_info_from_filename`,
image.py lines 176-197)

The regex `ICEYE_X\d+_GRD_(SM|SL)_(\d+)_(\d{8}T\d{6})` is matched by a
direct scanner.  Each `\d+` is followed by a non-digit literal and the
trailing group has fixed widths, so greedy maximal-munch without
backtracking is equivalent to Python's `re.search` here; `re.search`
tries every start position left to right, as `searchICEYE` does.
`\d` is modelled as an ASCII decimal digit. -/

/-- Split a leading run of decimal digits (greedy `\d+` or `\d*`). -/
def takeDigits : List Char → List Char × List Char
  | [] => ([], [])
  | c :: rest =>
    if c.isDigit then
      let p := takeDigits rest
      (c :: p.1, p.2)
    else ([], c :: rest)

/-- Consume an exact literal, returning the remainder. -/
def dropLit : List Char → List Char → Option (List Char)
  | [], s => some s
  | _ :: _, [] => none
  | l :: ls, c :: cs => if c = l then dropLit ls cs else none

/-- Consume exactly `n` decimal digits (`\d{n}`). -/
def takeExactDigits : ℕ → List Char → Option (List Char × List Char)
  | 0, s => some ([], s)
  | _ + 1, [] => none
  | n + 1, c :: cs =>
    if c.isDigit then
      (takeExactDigits n cs).map (fun p => (c :: p.1, p.2))
    else none

/-- Match the pattern `ICEYE_X\d+_GRD_(SM|SL)_(\d+)_(\d{8}T\d{6})`
anchored at the head of `s`; return captured groups 2 and 3
(`image_id`, raw timestamp). -/
def matchICEYE (s : List Char) : Option (String × String) := do
  let s ← dropLit "ICEYE_X".toList s
  let p1 := takeDigits s
  if p1.1.isEmpty then none else
  let s ← dropLit "_GRD_".toList p1.2
  let s ← match s with
    | 'S' :: 'M' :: r => some r
    | 'S' :: 'L' :: r => some r
    | _ => none
  let s ← dropLit "_".toList s
  let p2 := takeDigits s
  if p2.1.isEmpty then none else
  let s ← dropLit "_".toList p2.2
  let p3 ← takeExactDigits 8 s
  let s ← dropLit "T".toList p3.2
  let p4 ← takeExactDigits 6 s
  some (String.mk p2.1, String.mk (p3.1 ++ 'T' :: p4.1))

/-- `re.search`: try the pattern at every start position, left to right. -/
def searchICEYE : List Char → Option (String × String)
  | [] => none
  | c :: rest =>
    match matchICEYE (c :: rest) with
    | some r => some r
    | none => searchICEYE rest

/-- Value of a digit string (most significant first). -/
def digitsToNat (ds : List Char) : ℕ :=
  ds.foldl (fun a c => 10 * a + (c.toNat - 48)) 0

/-- The six numeric fields `(Y, M, D, h, m, s)` of a raw
`YYYYMMDDThhmmss` timestamp string. -/
def tsFields (ts : String) : ℕ × ℕ × ℕ × ℕ × ℕ × ℕ :=
  let cs := ts.toList
  (digitsToNat (cs.take 4), digitsToNat ((cs.drop 4).take 2),
   digitsToNat ((cs.drop 6).take 2), digitsToNat ((cs.drop 9).take 2),
   digitsToNat ((cs.drop 11).take 2), digitsToNat ((cs.drop 13).take 2))

/-- Python `datetime`'s Gregorian leap-year rule. -/
def isLeap (y : ℕ) : Bool := y % 4 == 0 && (y % 100 != 0 || y % 400 == 0)

/-- Length of month `m` of year `y` (as `datetime` validates it). -/
def daysInMonth (y m : ℕ) : ℕ :=
  if m = 2 then (if isLeap y then 29 else 28)
  else if m = 4 ∨ m = 6 ∨ m = 9 ∨ m = 11 then 30
  else 31

/-- `datetime.strptime(ts, "%Y%m%dT%H%M%S")` succeeds exactly when the
fields form a valid `datetime`: year in `MINYEAR..MAXYEAR`, a real
calendar date, and a time of day (seconds 60/61 pass the format regex
but are rejected by the `datetime` constructor). -/
def validDateTime (y mo d h mi s : ℕ) : Bool :=
  decide (1 ≤ y) && decide (y ≤ 9999) && decide (1 ≤ mo) && decide (mo ≤ 12)
    && decide (1 ≤ d) && decide (d ≤ daysInMonth y mo)
    && decide (h ≤ 23) && decide (mi ≤ 59) && decide (s ≤ 59)

/-- `validDateTime` on the fields of a raw timestamp string. -/
def tsValid (ts : String) : Bool :=
  let f := tsFields ts
  validDateTime f.1 f.2.1 f.2.2.1 f.2.2.2.1 f.2.2.2.2.1 f.2.2.2.2.2

/-- Left-pad a number to two digits. -/
def pad2 (n : ℕ) : String := if n < 10 then "0" ++ toString n else toString n

/-- Left-pad a number to four digits. -/
def pad4 (n : ℕ) : String :=
  if n < 10 then "000" ++ toString n
  else if n < 100 then "00" ++ toString n
  else if n < 1000 then "0" ++ toString n
  else toString n

/-- `datetime.isoformat()` for a whole-second instant:
`YYYY-MM-DDTHH:MM:SS`. -/
def isoFormat (y mo d h mi s : ℕ) : String :=
  pad4 y ++ "-" ++ pad2 mo ++ "-" ++ pad2 d ++ "T" ++ pad2 h ++ ":"
    ++ pad2 mi ++ ":" ++ pad2 s

/-- `isoFormat` on the fields of a raw timestamp string. -/
def isoOfTs (ts : String) : String :=
  let f := tsFields ts
  isoFormat f.1 f.2.1 f.2.2.1 f.2.2.2.1 f.2.2.2.2.1 f.2.2.2.2.2

/-- `GRDImage.extract_info_from_filename` (image.py lines 176-197):
search the path for the pattern; no match raises `ValueError`
("Invalid file name format", the spec's `FormatError`); on a match,
`datetime.strptime` parses group 3 — raising `ValueError` itself if the
digits are not a valid instant (`badDate`) — and the result is
`(group 2, isoformat)`. -/
def extract_info_from_filename (file_path : String) :
    Except Err (String × String) :=
  match searchICEYE file_path.toList with
  | none => .error .formatError
  | some (image_id, ts) =>
    if tsValid ts then .ok (image_id, isoOfTs ts)
    else .error .badDate

/-! ## The `GRDImage` entity and the pipeline driver (`geotif.py`) -/

/-- The `GRDImage` object state while its `data` is still the (rational)
pre-calibration array: the attributes set in `__init__`
(image.py lines 16-28). -/
structure GRDImage where
  file_path : String
  data : NDArray
  calibration_factor : ℚ
  image_id : String
  timestamp : String
  deriving DecidableEq, Repr

/-- One call of `image.normalize(fmt)`: the method computes
`normalized_data` and only then executes `self.data = ...`
(image.py line 78); the `ValueError` for a bad selector is raised before
any attribute assignment, so the returned state is the input state in
the error case. -/
def normalizeRun (img : GRDImage) (fmt : String) : GRDImage × Option Err :=
  match normalizeArray fmt img.data with
  | .error e => (img, some e)
  | .ok a => ({ img with data := a }, none)

/-- One call of `image.calibrate()`.  The guard (image.py line 112)
raises before any assignment.  On the success path the method first
reassigns `self.data` to the adjusted array (lines 117-121) and finally
to the real-valued `sigma0_db` array (line 129); the latter leaves the
rational `NDArray` world, so the final data is returned as the second
component while the first component carries the object's other
attributes (with `data` holding the intermediate adjusted array). -/
noncomputable def calibrateRun (img : GRDImage) :
    GRDImage × Option (List (List ℝ)) × Option Err :=
  if arrMin img.data.rows < 0 ∨ 1 < arrMax img.data.rows then
    (img, none, some .invalidState)
  else
    let adjusted := calibAdjust img.data.rows
    ({ img with data := ⟨adjusted, img.data.dtype⟩ },
     some (adjusted.map (List.map (sigma0_db img.calibration_factor))),
     none)

/-- Everything observable about one successful driver run. -/
structure RunResult where
  /-- `self.data` right after `normalize` (image.py line 78). -/
  normData : List (List ℚ)
  /-- `self.data` right after `calibrate` (image.py line 129). -/
  calData : List (List ℝ)
  /-- numpy shape of the array `downsample` RETURNS (and `main` discards,
  geotif.py line 49). -/
  thumbShape : ℕ × ℕ
  /-- the PNG `save_as_png` writes from `self.data` (geotif.py line 50). -/
  saved : PNGFile

/-- `main` (geotif.py lines 38-55): `image.normalize(fmt)`;
`image.calibrate()`; `image.downsample(max_size)` whose return value is
discarded; `image.save_as_png(output)` which reads `self.data` — still
the calibration output, since `downsample` assigns no attribute. -/
noncomputable def driverRun (img : GRDImage) (fmt : String) (size : ℕ × ℕ) :
    Except Err RunResult :=
  match normalizeArray fmt img.data with
  | .error e => .error e
  | .ok nd =>
    match calibrateArray img.calibration_factor nd.rows with
    | .error e => .error e
    | .ok cal =>
      .ok ⟨nd.rows, cal, downsampleShape cal size, save_as_pngR cal⟩

/-! ## Concrete example values used by witnesses and counterexamples -/

/-- A `GRDImage` whose data `[[2]]` is outside `[0,1]` (and whose
normalization selector below will be invalid). -/
def imgW : GRDImage := ⟨"p.tif", ⟨[[2]], .float64⟩, 1, "42", "t"⟩

/-- A `GRDImage` with a 2×2 data array spanning `[0,1]`. -/
def imgC : GRDImage := ⟨"q.tif", ⟨[[0, 1], [1, 0]], .float64⟩, 1, "7", "t"⟩

/-- The calibration output for `imgC` after `"0-1"` normalization
(which is the identity on data already spanning `[0,1]`). -/
noncomputable def calC : List (List ℝ) :=
  [[sigma0_db 1 0, sigma0_db 1 1], [sigma0_db 1 1, sigma0_db 1 0]]

/-- The full observable result of the driver run on `imgC` with
selector `"0-1"` and bound `(1, 1)`. -/
noncomputable def runC : RunResult :=
  ⟨[[0, 1], [1, 0]], calC, (1, 1), save_as_pngR calC⟩
lemma foldl_min_le_init (l : List ℚ) (a : ℚ) : l.foldl min a ≤ a := by
  induction l generalizing a with
  | nil => simp
  | cons x xs ih => exact le_trans (ih (min a x)) (min_le_left a x)

lemma foldl_min_le_mem (l : List ℚ) (x : ℚ) :
    ∀ a : ℚ, x ∈ l → l.foldl min a ≤ x := by
  induction l with
  | nil => intro a hx; cases hx
  | cons y ys ih =>
    intro a hx
    rcases List.mem_cons.mp hx with h | h
    · subst h
      exact le_trans (foldl_min_le_init ys (min a x)) (min_le_right a x)
    · exact ih (min a y) h

lemma le_foldl_min (l : List ℚ) (c : ℚ) :
    ∀ a : ℚ, c ≤ a → (∀ x ∈ l, c ≤ x) → c ≤ l.foldl min a := by
  induction l with
  | nil => intro a ha _; exact ha
  | cons y ys ih =>
    intro a ha h
    exact ih (min a y) (le_min ha (h y (List.mem_cons_self y ys)))
      (fun x hx => h x (List.mem_cons_of_mem y hx))

lemma init_le_foldl_max (l : List ℚ) (a : ℚ) : a ≤ l.foldl max a := by
  induction l generalizing a with
  | nil => simp
  | cons x xs ih => exact le_trans (le_max_left a x) (ih (max a x))

lemma mem_le_foldl_max (l : List ℚ) (x : ℚ) :
    ∀ a : ℚ, x ∈ l → x ≤ l.foldl max a := by
  induction l with
  | nil => intro a hx; cases hx
  | cons y ys ih =>
    intro a hx
    rcases List.mem_cons.mp hx with h | h
    · subst h
      exact le_trans (le_max_right a x) (init_le_foldl_max ys (max a x))
    · exact ih (max a y) h

lemma foldl_max_le (l : List ℚ) (c : ℚ) :
    ∀ a : ℚ, a ≤ c → (∀ x ∈ l, x ≤ c) → l.foldl max a ≤ c := by
  induction l with
  | nil => intro a ha _; exact ha
  | cons y ys ih =>
    intro a ha h
    exact ih (max a y) (max_le ha (h y (List.mem_cons_self y ys)))
      (fun x hx => h x (List.mem_cons_of_mem y hx))

lemma listMin_le_mem {l : List ℚ} {x : ℚ} (hx : x ∈ l) : listMin l ≤ x := by
  cases l with
  | nil => cases hx
  | cons y ys =>
    rcases List.mem_cons.mp hx with h | h
    · subst h; exact foldl_min_le_init ys x
    · exact foldl_min_le_mem ys x y h

lemma le_listMin {l : List ℚ} {c : ℚ} (hne : l ≠ [])
    (h : ∀ x ∈ l, c ≤ x) : c ≤ listMin l := by
  cases l with
  | nil => exact absurd rfl hne
  | cons y ys =>
    exact le_foldl_min ys c y (h y (List.mem_cons_self y ys))
      (fun x hx => h x (List.mem_cons_of_mem y hx))

lemma mem_le_listMax {l : List ℚ} {x : ℚ} (hx : x ∈ l) : x ≤ listMax l := by
  cases l with
  | nil => cases hx
  | cons y ys =>
    rcases List.mem_cons.mp hx with h | h
    · subst h; exact init_le_foldl_max ys x
    · exact mem_le_foldl_max ys x y h

lemma listMax_le {l : List ℚ} {c : ℚ} (hne : l ≠ [])
    (h : ∀ x ∈ l, x ≤ c) : listMax l ≤ c := by
  cases l with
  | nil => exact absurd rfl hne
  | cons y ys =>
    exact foldl_max_le ys c y (h y (List.mem_cons_self y ys))
      (fun x hx => h x (List.mem_cons_of_mem y hx))


/-! ## Facts about the Normalizer -/

lemma normalizeArray_01 (a : NDArray) :
    normalizeArray "0-1" a =
      .ok ⟨a.rows.map (List.map (norm01 (arrMin a.rows) (arrMax a.rows))),
           .float32⟩ := rfl

lemma normalizeArray_m11 (a : NDArray) :
    normalizeArray "-1-1" a =
      .ok ⟨a.rows.map (List.map (normM11 (arrMin a.rows) (arrMax a.rows))),
           .float32⟩ := rfl

lemma normalizeArray_0255 (a : NDArray) :
    normalizeArray "0-255" a =
      .ok ⟨a.rows.map (List.map (norm0255 (arrMin a.rows) (arrMax a.rows))),
           .float32⟩ := rfl

lemma normalizeArray_other (a : NDArray) {fmt : String}
    (h1 : fmt ≠ "0-1") (h2 : fmt ≠ "-1-1") (h3 : fmt ≠ "0-255") :
    normalizeArray fmt a = .error .invalidArgument := by
  simp [normalizeArray, h1, h2, h3]

lemma mem_of_mem_map_rows {rows : List (List ℚ)} {f : ℚ → ℚ}
    {r : List ℚ} {x : ℚ} (hr : r ∈ rows.map (List.map f)) (hx : x ∈ r) :
    ∃ v ∈ rows.flatten, x = f v := by
  obtain ⟨r0, hr0, rfl⟩ := List.mem_map.mp hr
  obtain ⟨v, hv, rfl⟩ := List.mem_map.mp hx
  exact ⟨v, List.mem_flatten.mpr ⟨r0, hr0, hv⟩, rfl⟩

lemma norm_unit_bounds {mn mx v : ℚ} (h : mn < mx) (h1 : mn ≤ v)
    (h2 : v ≤ mx) : 0 ≤ (v - mn) / (mx - mn) ∧ (v - mn) / (mx - mn) ≤ 1 := by
  have hd : (0 : ℚ) < mx - mn := by linarith
  exact ⟨div_nonneg (by linarith) hd.le, (div_le_one hd).mpr (by linarith)⟩

/-- C4: `normalize` computes `(x - min)/(max - min)` for `"0-1"`,
`2*(x - min)/(max - min) - 1` for `"-1-1"`, `255*(x - min)/(max - min)`
for `"0-255"`, with the array's own min and max and a `float32` result,
and fails with `InvalidArgument` on any other selector string. -/
theorem normalize_formula_spec (a : NDArray)
    (_hlt : arrMin a.rows < arrMax a.rows) :
    normalizeArray "0-1" a =
      .ok ⟨a.rows.map (List.map
        (fun x => (x - arrMin a.rows) / (arrMax a.rows - arrMin a.rows))),
        .float32⟩ ∧
    normalizeArray "-1-1" a =
      .ok ⟨a.rows.map (List.map
        (fun x => 2 * (x - arrMin a.rows) / (arrMax a.rows - arrMin a.rows) - 1)),
        .float32⟩ ∧
    normalizeArray "0-255" a =
      .ok ⟨a.rows.map (List.map
        (fun x => 255 * (x - arrMin a.rows) / (arrMax a.rows - arrMin a.rows))),
        .float32⟩ ∧
    ∀ fmt : String, fmt ≠ "0-1" → fmt ≠ "-1-1" → fmt ≠ "0-255" →
      normalizeArray fmt a = .error .invalidArgument :=
  ⟨normalizeArray_01 a, normalizeArray_m11 a, normalizeArray_0255 a,
   fun _ h1 h2 h3 => normalizeArray_other a h1 h2 h3⟩

/-- Witness for C4 at the array `[[0, 2]]`. -/
theorem normalize_formula_spec_witness :
    arrMin [[(0 : ℚ), 2]] < arrMax [[(0 : ℚ), 2]] ∧
    normalizeArray "0-1" ⟨[[0, 2]], .float64⟩ =
      .ok ⟨[[(0 : ℚ), 2]].map (List.map
        (fun x => (x - arrMin [[(0 : ℚ), 2]]) /
          (arrMax [[(0 : ℚ), 2]] - arrMin [[(0 : ℚ), 2]]))), .float32⟩ ∧
    normalizeArray "x" ⟨[[0, 2]], .float64⟩ = .error .invalidArgument :=
  ⟨by decide,
   (normalize_formula_spec ⟨[[0, 2]], .float64⟩ (by decide)).1,
   (normalize_formula_spec ⟨[[0, 2]], .float64⟩ (by decide)).2.2.2 "x"
     (by decide) (by decide) (by decide)⟩

/-- C8: with `max > min`, the `"0-1"` output lies in `[0,1]`, the
`"-1-1"` output in `[-1,1]`, and the `"0-255"` output in `[0,255]`. -/
theorem normalize_range_spec (a : NDArray)
    (hlt : arrMin a.rows < arrMax a.rows) :
    (∀ out, normalizeArray "0-1" a = .ok out →
      ∀ r ∈ out.rows, ∀ x ∈ r, 0 ≤ x ∧ x ≤ 1) ∧
    (∀ out, normalizeArray "-1-1" a = .ok out →
      ∀ r ∈ out.rows, ∀ x ∈ r, -1 ≤ x ∧ x ≤ 1) ∧
    (∀ out, normalizeArray "0-255" a = .ok out →
      ∀ r ∈ out.rows, ∀ x ∈ r, 0 ≤ x ∧ x ≤ 255) := by
  refine ⟨?_, ?_, ?_⟩
  · intro out hout r hr x hx
    rw [normalizeArray_01 a] at hout
    injection hout with hout
    subst hout
    obtain ⟨v, hv, rfl⟩ := mem_of_mem_map_rows hr hx
    have hb := norm_unit_bounds hlt (listMin_le_mem hv) (mem_le_listMax hv)
    exact hb
  · intro out hout r hr x hx
    rw [normalizeArray_m11 a] at hout
    injection hout with hout
    subst hout
    obtain ⟨v, hv, rfl⟩ := mem_of_mem_map_rows hr hx
    have hb := norm_unit_bounds hlt (listMin_le_mem hv) (mem_le_listMax hv)
    unfold normM11
    rw [mul_div_assoc]
    constructor <;> linarith [hb.1, hb.2]
  · intro out hout r hr x hx
    rw [normalizeArray_0255 a] at hout
    injection hout with hout
    subst hout
    obtain ⟨v, hv, rfl⟩ := mem_of_mem_map_rows hr hx
    have hb := norm_unit_bounds hlt (listMin_le_mem hv) (mem_le_listMax hv)
    unfold norm0255
    rw [mul_div_assoc]
    constructor <;> linarith [hb.1, hb.2]

/-- Witness for C8 at the array `[[0, 2]]`. -/
theorem normalize_range_spec_witness :
    arrMin [[(0 : ℚ), 2]] < arrMax [[(0 : ℚ), 2]] ∧
    (∀ r ∈ [[(0 : ℚ), 2]].map (List.map
        (norm01 (arrMin [[(0 : ℚ), 2]]) (arrMax [[(0 : ℚ), 2]]))),
      ∀ x ∈ r, 0 ≤ x ∧ x ≤ 1) :=
  ⟨by decide,
   (normalize_range_spec ⟨[[0, 2]], .float64⟩ (by decide)).1
     ⟨[[(0 : ℚ), 2]].map (List.map
        (norm01 (arrMin [[(0 : ℚ), 2]]) (arrMax [[(0 : ℚ), 2]]))), .float32⟩
     (normalizeArray_01 ⟨[[0, 2]], .float64⟩)⟩

/-! ## Facts about the Calibrator -/

lemma calib_guard_false {xs : List (List ℚ)} (hne : xs.flatten ≠ [])
    (h : ∀ x ∈ xs.flatten, 0 ≤ x ∧ x ≤ 1) :
    ¬(arrMin xs < 0 ∨ 1 < arrMax xs) := by
  push_neg
  exact ⟨le_listMin hne (fun x hx => (h x hx).1),
         listMax_le hne (fun x hx => (h x hx).2)⟩

lemma calib_guard_true {xs : List (List ℚ)}
    (h : ∃ x ∈ xs.flatten, x < 0 ∨ 1 < x) :
    arrMin xs < 0 ∨ 1 < arrMax xs := by
  obtain ⟨x, hx, hcase⟩ := h
  rcases hcase with hlt | hgt
  · exact Or.inl (lt_of_le_of_lt (listMin_le_mem hx) hlt)
  · exact Or.inr (lt_of_lt_of_le hgt (mem_le_listMax hx))

lemma calibAdjust_id {xs : List (List ℚ)} (h0 : 0 ≤ arrMin xs)
    (h1 : arrMax xs ≤ 1) : calibAdjust xs = xs := by
  unfold calibAdjust
  rw [if_neg, if_neg]
  · exact not_lt.mpr h0
  · rintro ⟨-, hgt⟩
    exact absurd hgt (not_lt.mpr h1)

lemma calibrateArray_ok {cf : ℚ} {xs : List (List ℚ)}
    (hne : xs.flatten ≠ []) (h : ∀ x ∈ xs.flatten, 0 ≤ x ∧ x ≤ 1) :
    calibrateArray cf xs = .ok (xs.map (List.map (sigma0_db cf))) := by
  have hg := calib_guard_false hne h
  have hg' := hg
  push_neg at hg'
  unfold calibrateArray
  rw [if_neg hg, calibAdjust_id hg'.1 hg'.2]

/-- C1: the range check of `calibrate` happens on the pre-adjustment
array — any element outside `[0,1]` fails immediately with
`InvalidState`; data already in `[0,1]` skips adjustment entirely
(`calibAdjust` is the identity there); hence the two adjustment
branches are unreachable and exactly the arrays wholly inside `[0,1]`
reach the calibration formula. -/
theorem calibrate_gating_spec (cf : ℚ) (xs : List (List ℚ))
    (hne : xs.flatten ≠ []) :
    ((∃ x ∈ xs.flatten, x < 0 ∨ 1 < x) →
      calibrateArray cf xs = .error .invalidState) ∧
    ((∀ x ∈ xs.flatten, 0 ≤ x ∧ x ≤ 1) →
      calibAdjust xs = xs ∧
      calibrateArray cf xs = .ok (xs.map (List.map (sigma0_db cf)))) ∧
    ((∃ out, calibrateArray cf xs = .ok out) ↔
      ∀ x ∈ xs.flatten, 0 ≤ x ∧ x ≤ 1) := by
  refine ⟨?_, ?_, ?_, ?_⟩
  · intro h
    unfold calibrateArray
    rw [if_pos (calib_guard_true h)]
  · intro h
    have hg := calib_guard_false hne h
    push_neg at hg
    exact ⟨calibAdjust_id hg.1 hg.2, calibrateArray_ok hne h⟩
  · rintro ⟨out, hout⟩ x hx
    by_cases hg : arrMin xs < 0 ∨ 1 < arrMax xs
    · unfold calibrateArray at hout
      rw [if_pos hg] at hout
      cases hout
    · push_neg at hg
      exact ⟨le_trans hg.1 (listMin_le_mem hx),
             le_trans (mem_le_listMax hx) hg.2⟩
  · intro h
    exact ⟨xs.map (List.map (sigma0_db cf)), calibrateArray_ok hne h⟩

/-- Witness for C1 at the arrays `[[0, 1]]` (in range) and `[[2]]`
(out of range). -/
theorem calibrate_gating_spec_witness :
    (([[(0 : ℚ), 1]] : List (List ℚ)).flatten ≠ [] ∧
      (∀ x ∈ ([[(0 : ℚ), 1]] : List (List ℚ)).flatten, 0 ≤ x ∧ x ≤ 1) ∧
      calibAdjust [[(0 : ℚ), 1]] = [[(0 : ℚ), 1]] ∧
      calibrateArray 1 [[(0 : ℚ), 1]] =
        .ok ([[(0 : ℚ), 1]].map (List.map (sigma0_db 1)))) ∧
    (([[(2 : ℚ)]] : List (List ℚ)).flatten ≠ [] ∧
      (∃ x ∈ ([[(2 : ℚ)]] : List (List ℚ)).flatten, x < 0 ∨ 1 < x) ∧
      calibrateArray 1 [[(2 : ℚ)]] = .error .invalidState) :=
  ⟨⟨by decide, by decide,
    ((calibrate_gating_spec 1 [[(0 : ℚ), 1]] (by decide)).2.1 (by decide)).1,
    ((calibrate_gating_spec 1 [[(0 : ℚ), 1]] (by decide)).2.1 (by decide)).2⟩,
   ⟨by decide, by decide,
    (calibrate_gating_spec 1 [[(2 : ℚ)]] (by decide)).1 (by decide)⟩⟩

/-- C3: on data wholly inside `[0,1]`, `calibrate` replaces the array
elementwise by `sigma0_db = 10 * log10(calibrationFactor * |x|^2 + 1e-10)`. -/
theorem calibrate_formula_spec (cf : ℚ) (xs : List (List ℚ))
    (hne : xs.flatten ≠ []) (h : ∀ x ∈ xs.flatten, 0 ≤ x ∧ x ≤ 1) :
    calibrateArray cf xs = .ok (xs.map (List.map
      (fun x : ℚ => (10 : ℝ) * Real.logb 10 ((cf * |x| ^ 2 + 1e-10 : ℚ) : ℝ)))) :=
  calibrateArray_ok hne h

/-- Witness for C3 at the array `[[0, 1]]` with factor `1`. -/
theorem calibrate_formula_spec_witness :
    (([[(0 : ℚ), 1]] : List (List ℚ)).flatten ≠ [] ∧
      (∀ x ∈ ([[(0 : ℚ), 1]] : List (List ℚ)).flatten, 0 ≤ x ∧ x ≤ 1)) ∧
    calibrateArray 1 [[(0 : ℚ), 1]] = .ok ([[(0 : ℚ), 1]].map (List.map
      (fun x : ℚ => (10 : ℝ) * Real.logb 10 ((1 * |x| ^ 2 + 1e-10 : ℚ) : ℝ)))) :=
  ⟨⟨by decide, by decide⟩,
   calibrate_formula_spec 1 [[(0 : ℚ), 1]] (by decide) (by decide)⟩

/-- C7: for data in `[0,1]` and a positive calibration factor the
argument `sigma0 + 1e-10` handed to `log10` is strictly positive, so
`calibrate` never takes the logarithm of a non-positive number (no NaN
domain error). -/
theorem calibrate_epsilon_spec (cf : ℚ) (xs : List (List ℚ))
    (hcf : 0 < cf) (_h : ∀ x ∈ xs.flatten, 0 ≤ x ∧ x ≤ 1) :
    ∀ x ∈ xs.flatten, 0 < sigma0 cf x + 1e-10 := by
  intro x _
  have h1 : 0 ≤ sigma0 cf x :=
    mul_nonneg hcf.le (pow_nonneg (abs_nonneg x) 2)
  have h2 : (0 : ℚ) < 1e-10 := by norm_num
  linarith

/-- Witness for C7 at `cf = 1`, data `[[0, 1]]`. -/
theorem calibrate_epsilon_spec_witness :
    (0 : ℚ) < 1 ∧ (∀ x ∈ ([[(0 : ℚ), 1]] : List (List ℚ)).flatten, 0 ≤ x ∧ x ≤ 1) ∧
    ∀ x ∈ ([[(0 : ℚ), 1]] : List (List ℚ)).flatten, 0 < sigma0 1 x + 1e-10 :=
  ⟨by decide, by decide,
   calibrate_epsilon_spec 1 [[(0 : ℚ), 1]] (by decide) (by decide)⟩

/-! ## Error atomicity of the stages (C10) -/

/-- C10: when `normalize` rejects its selector or `calibrate` rejects
the data range, the `ValueError` is raised before any attribute
assignment, so the `GRDImage` state — `data`, `calibration_factor`,
`image_id`, `timestamp` — is exactly the prior state (and `calibrate`
has produced no output array). -/
theorem stage_error_atomicity (img : GRDImage) (fmt : String) (e : Err) :
    ((normalizeRun img fmt).2 = some e →
      (normalizeRun img fmt).1 = img ∧
      (normalizeRun img fmt).1.data = img.data ∧
      (normalizeRun img fmt).1.calibration_factor = img.calibration_factor ∧
      (normalizeRun img fmt).1.image_id = img.image_id ∧
      (normalizeRun img fmt).1.timestamp = img.timestamp) ∧
    ((calibrateRun img).2.2 = some e →
      (calibrateRun img).1 = img ∧ (calibrateRun img).2.1 = none) := by
  constructor
  · intro h
    have hst : (normalizeRun img fmt).1 = img := by
      unfold normalizeRun at h ⊢
      cases hna : normalizeArray fmt img.data with
      | error e2 => rfl
      | ok a => rw [hna] at h; simp at h
    exact ⟨hst, by rw [hst], by rw [hst], by rw [hst], by rw [hst]⟩
  · intro h
    unfold calibrateRun at h ⊢
    by_cases hg : arrMin img.data.rows < 0 ∨ 1 < arrMax img.data.rows
    · rw [if_pos hg]
      exact ⟨rfl, rfl⟩
    · rw [if_neg hg] at h
      cases h

/-- Witness for C10: `imgW` (data `[[2]]`) with the unknown selector
`"bogus"` for `normalize`, and its out-of-range data for `calibrate`. -/
theorem stage_error_atomicity_witness :
    (normalizeRun imgW "bogus").2 = some .invalidArgument ∧
    (normalizeRun imgW "bogus").1 = imgW ∧
    (calibrateRun imgW).2.2 = some .invalidState ∧
    (calibrateRun imgW).1 = imgW ∧ (calibrateRun imgW).2.1 = none :=
  ⟨rfl,
   ((stage_error_atomicity imgW "bogus" .invalidArgument).1 rfl).1,
   rfl,
   ((stage_error_atomicity imgW "bogus" .invalidState).2 rfl).1,
   ((stage_error_atomicity imgW "bogus" .invalidState).2 rfl).2⟩

/-! ## Facts about `save_as_png` (C9) -/

lemma shape_map_map {α β : Type} (f : α → β) (rows : List (List α)) :
    shape (rows.map (List.map f)) = shape rows := by
  cases rows with
  | nil => rfl
  | cons r rs => simp [shape]

lemma toUint8_le (x : ℚ) : toUint8 x ≤ 255 := by
  unfold toUint8
  have h : ⌊min 255 (max 0 (x * 255))⌋ ≤ (255 : ℤ) := by
    calc ⌊min 255 (max 0 (x * 255))⌋ ≤ ⌊(255 : ℚ)⌋ :=
          Int.floor_le_floor (min_le_left _ _)
      _ = 255 := by norm_num
  omega

/-- C9 counterexample: at the one-sample array `[[1]]` the PNG pixel the
code writes is `255` (the data is multiplied by 255 before the clip),
not the claimed clip-only value `1`. -/
theorem save_png_counterexample :
    (save_as_png [[1]]).pixels = [[255]] ∧
    [[specClipPixel 1]] = [[1]] ∧
    (save_as_png [[1]]).pixels ≠ [[specClipPixel 1]] := by
  refine ⟨?_, ?_, ?_⟩
  · show [[(⌊min 255 (max 0 ((1 : ℚ) * 255))⌋).toNat]] = [[255]]
    norm_num
    decide
  · show [[(⌊min 255 (max 0 (1 : ℚ))⌋).toNat]] = [[1]]
    norm_num
  · show [[(⌊min 255 (max 0 ((1 : ℚ) * 255))⌋).toNat]] ≠
      [[(⌊min 255 (max 0 (1 : ℚ))⌋).toNat]]
    norm_num
    decide

/-- C9 amended: the image written by `save_as_png` is the data array
scaled by 255, clipped to `[0,255]` and truncated to unsigned 8-bit
integers, written as a single-channel grayscale PNG of the same shape;
every written pixel fits in a byte. -/
theorem save_png_amended_spec (rows : List (List ℚ)) :
    (save_as_png rows).grayscale = true ∧
    (save_as_png rows).pixels = rows.map (List.map toUint8) ∧
    shape (save_as_png rows).pixels = shape rows ∧
    (∀ r ∈ (save_as_png rows).pixels, ∀ v ∈ r, v ≤ 255) := by
  refine ⟨rfl, rfl, shape_map_map toUint8 rows, ?_⟩
  intro r hr v hv
  obtain ⟨r0, _, rfl⟩ := List.mem_map.mp hr
  obtain ⟨x, _, rfl⟩ := List.mem_map.mp hv
  exact toUint8_le x

/-- Witness for C9 (amended) at the array `[[2]]`. -/
theorem save_png_amended_spec_witness :
    (save_as_png [[2]]).grayscale = true ∧
    shape (save_as_png [[2]]).pixels = shape [[(2 : ℚ)]] :=
  ⟨(save_png_amended_spec [[2]]).1, (save_png_amended_spec [[2]]).2.2.1⟩

/-! ## Facts about the filename metadata extraction (C5) -/

/-- C5 counterexample: the path
`"ICEYE_X1_GRD_SM_1_99999999T999999.tif"` contains a substring matching
the pattern (so the claim says the parser returns a result), yet the
extraction fails, because `datetime.strptime` rejects the matched
timestamp digits. -/
theorem filename_counterexample :
    (searchICEYE "ICEYE_X1_GRD_SM_1_99999999T999999.tif".toList).isSome = true ∧
    extract_info_from_filename "ICEYE_X1_GRD_SM_1_99999999T999999.tif" =
      .error .badDate := by
  exact ⟨rfl, rfl⟩

/-- C5 amended: the parser returns `(productId, timestamp)` — the second
captured digit group verbatim and the third group rendered as
`YYYY-MM-DDTHH:MM:SS` — exactly when some substring of the path matches
the pattern AND the matched timestamp digits form a valid calendar
instant; it fails with `FormatError` when no match is found, and with a
date `ValueError` when the match's timestamp is calendar-invalid; on
`".../ICEYE_X4_GRD_SM_9281_20190903T144946.tif"` it returns
`("9281", "2019-09-03T14:49:46")`. -/
theorem filename_info_spec :
    (∀ p : String, searchICEYE p.toList = none →
      extract_info_from_filename p = .error .formatError) ∧
    (∀ (p : String) (id ts : String),
      searchICEYE p.toList = some (id, ts) → tsValid ts = true →
      extract_info_from_filename p = .ok (id, isoOfTs ts)) ∧
    (∀ (p : String) (id ts : String),
      searchICEYE p.toList = some (id, ts) → tsValid ts = false →
      extract_info_from_filename p = .error .badDate) ∧
    (∀ p : String, (∃ v, extract_info_from_filename p = .ok v) ↔
      (∃ id ts, searchICEYE p.toList = some (id, ts) ∧ tsValid ts = true)) ∧
    extract_info_from_filename
      "data/input/ICEYE_X4_GRD_SM_9281_20190903T144946.tif" =
      .ok ("9281", "2019-09-03T14:49:46") := by
  refine ⟨?_, ?_, ?_, ?_, ?_⟩
  · intro p hp
    unfold extract_info_from_filename
    rw [hp]
  · intro p id ts hp hts
    unfold extract_info_from_filename
    rw [hp]
    simp [hts]
  · intro p id ts hp hts
    unfold extract_info_from_filename
    rw [hp]
    simp [hts]
  · intro p
    constructor
    · rintro ⟨v, hv⟩
      unfold extract_info_from_filename at hv
      cases hs : searchICEYE p.toList with
      | none => rw [hs] at hv; cases hv
      | some r =>
        obtain ⟨id, ts⟩ := r
        rw [hs] at hv
        by_cases hts : tsValid ts = true
        · exact ⟨id, ts, rfl, hts⟩
        · simp [hts] at hv
    · rintro ⟨id, ts, hp, hts⟩
      unfold extract_info_from_filename
      rw [hp]
      simp [hts]
  · rfl

/-- Witness for C5 (amended) at the test path. -/
theorem filename_info_spec_witness :
    searchICEYE "data/input/ICEYE_X4_GRD_SM_9281_20190903T144946.tif".toList =
      some ("9281", "20190903T144946") ∧
    tsValid "20190903T144946" = true ∧
    extract_info_from_filename
      "data/input/ICEYE_X4_GRD_SM_9281_20190903T144946.tif" =
      .ok ("9281", isoOfTs "20190903T144946") :=
  ⟨rfl, rfl,
   filename_info_spec.2.1 "data/input/ICEYE_X4_GRD_SM_9281_20190903T144946.tif"
     "9281" "20190903T144946" rfl rfl⟩

/-! ## Facts about the Downsampler (C6) -/

lemma roundAspect_ge_one (q : ℚ) (err : ℤ → ℚ) : 1 ≤ roundAspect q err :=
  le_max_right _ _

lemma roundAspect_le (q : ℚ) (err : ℤ → ℚ) {B : ℤ} (hqB : q ≤ (B : ℚ))
    (hB : 1 ≤ B) : roundAspect q err ≤ B := by
  unfold roundAspect
  have hc : ⌈q⌉ ≤ B := Int.ceil_le.mpr hqB
  have hf : ⌊q⌋ ≤ B := le_trans (Int.floor_le_ceil q) hc
  apply max_le _ hB
  split <;> assumption

lemma roundAspect_close (q : ℚ) (err : ℤ → ℚ) (hq : 0 < q) :
    |((roundAspect q err : ℤ) : ℚ) - q| ≤ 1 := by
  have hfl : ((⌊q⌋ : ℤ) : ℚ) ≤ q := Int.floor_le q
  have hfl2 : q < ((⌊q⌋ : ℤ) : ℚ) + 1 := Int.lt_floor_add_one q
  have hcl : q ≤ ((⌈q⌉ : ℤ) : ℚ) := Int.le_ceil q
  have hcl2 : ((⌈q⌉ : ℤ) : ℚ) < q + 1 := Int.ceil_lt_add_one q
  unfold roundAspect
  rcases le_or_lt 1 (if err ⌊q⌋ ≤ err ⌈q⌉ then ⌊q⌋ else ⌈q⌉) with h1 | h1
  · rw [max_eq_left h1]
    split
    · rw [abs_le]; constructor <;> linarith
    · rw [abs_le]; constructor <;> linarith
  · rw [max_eq_right h1.le]
    have hfle : ⌊q⌋ ≤ (if err ⌊q⌋ ≤ err ⌈q⌉ then ⌊q⌋ else ⌈q⌉) := by
      split
      · exact le_refl _
      · exact Int.floor_le_ceil q
    have h2 : ⌊q⌋ ≤ 0 := by
      have := lt_of_le_of_lt hfle h1
      omega
    have h3 : ((⌊q⌋ : ℤ) : ℚ) ≤ 0 := by exact_mod_cast h2
    rw [abs_le]
    constructor <;> push_cast <;> linarith

/-- C6: the thumbnail size chosen by `downsample` always fits within the
`(width, height)` bound; a source already within the bound is returned
unchanged (no upscaling); otherwise one side is clamped to the bound and
the other equals the exact aspect-proportional value up to one pixel of
rounding.  On the repository's sample raster (aspect `700 : 1000`, as
fixed by the expected `(180, 126)` test shape) the `(256, 180)` bound
yields `(126, 180)`, whose largest dimension is `180 ≤ 180`. -/
theorem downsample_fit_spec :
    (∀ w h bw bh : ℕ, 1 ≤ w → 1 ≤ h → 1 ≤ bw → 1 ≤ bh →
      (thumbnailSize w h bw bh).1 ≤ bw ∧
      (thumbnailSize w h bw bh).2 ≤ bh ∧
      (w ≤ bw → h ≤ bh → thumbnailSize w h bw bh = (w, h)) ∧
      (thumbnailSize w h bw bh = (w, h) ∨
        ((thumbnailSize w h bw bh).2 = bh ∧
          |((thumbnailSize w h bw bh).1 : ℚ) - (bh : ℚ) * ((w : ℚ) / (h : ℚ))| ≤ 1) ∨
        ((thumbnailSize w h bw bh).1 = bw ∧
          |((thumbnailSize w h bw bh).2 : ℚ) - (bw : ℚ) * ((h : ℚ) / (w : ℚ))| ≤ 1))) ∧
    (∀ (rows : List (List ℝ)) (bw bh : ℕ),
      1 ≤ (shape rows).1 → 1 ≤ (shape rows).2 → 1 ≤ bw → 1 ≤ bh →
      (downsampleShape rows (bw, bh)).1 ≤ bh ∧
      (downsampleShape rows (bw, bh)).2 ≤ bw) ∧
    thumbnailSize 700 1000 256 180 = (126, 180) ∧
    max (thumbnailSize 700 1000 256 180).1 (thumbnailSize 700 1000 256 180).2
      ≤ 180 := by
  have main : ∀ w h bw bh : ℕ, 1 ≤ w → 1 ≤ h → 1 ≤ bw → 1 ≤ bh →
      (thumbnailSize w h bw bh).1 ≤ bw ∧
      (thumbnailSize w h bw bh).2 ≤ bh ∧
      (w ≤ bw → h ≤ bh → thumbnailSize w h bw bh = (w, h)) ∧
      (thumbnailSize w h bw bh = (w, h) ∨
        ((thumbnailSize w h bw bh).2 = bh ∧
          |((thumbnailSize w h bw bh).1 : ℚ) - (bh : ℚ) * ((w : ℚ) / (h : ℚ))| ≤ 1) ∨
        ((thumbnailSize w h bw bh).1 = bw ∧
          |((thumbnailSize w h bw bh).2 : ℚ) - (bw : ℚ) * ((h : ℚ) / (w : ℚ))| ≤ 1)) := by
    intro w h bw bh hw hh hbw hbh
    have hwQ : (0 : ℚ) < (w : ℚ) := by exact_mod_cast hw
    have hhQ : (0 : ℚ) < (h : ℚ) := by exact_mod_cast hh
    have hbwQ : (0 : ℚ) < (bw : ℚ) := by exact_mod_cast hbw
    have hbhQ : (0 : ℚ) < (bh : ℚ) := by exact_mod_cast hbh
    have hA : (0 : ℚ) < (w : ℚ) / (h : ℚ) := div_pos hwQ hhQ
    unfold thumbnailSize
    split_ifs with hfit hbr
    · exact ⟨hfit.1, hfit.2, fun _ _ => rfl, Or.inl rfl⟩
    · -- width clamped to the aspect, height to the bound
      have hqpos : 0 < (bh : ℚ) * ((w : ℚ) / (h : ℚ)) := mul_pos hbhQ hA
      have hqle : (bh : ℚ) * ((w : ℚ) / (h : ℚ)) ≤ (bw : ℚ) := by
        have h1 : ((w : ℚ) / (h : ℚ)) * (bh : ℚ) ≤ ((bw : ℚ) / (bh : ℚ)) * (bh : ℚ) :=
          mul_le_mul_of_nonneg_right hbr hbhQ.le
        rw [div_mul_cancel₀ _ (ne_of_gt hbhQ)] at h1
        linarith [h1]
      have hr1 := roundAspect_ge_one ((bh : ℚ) * ((w : ℚ) / (h : ℚ)))
        (fun n => |(w : ℚ) / (h : ℚ) - (n : ℚ) / (bh : ℚ)|)
      have hrle := roundAspect_le ((bh : ℚ) * ((w : ℚ) / (h : ℚ)))
        (fun n => |(w : ℚ) / (h : ℚ) - (n : ℚ) / (bh : ℚ)|)
        (B := (bw : ℤ)) (by exact_mod_cast hqle) (by exact_mod_cast hbw)
      refine ⟨by exact_mod_cast Int.toNat_le.mpr hrle, le_refl bh,
        fun h1 h2 => absurd ⟨h1, h2⟩ hfit, Or.inr (Or.inl ⟨rfl, ?_⟩)⟩
      have hcast : (((roundAspect ((bh : ℚ) * ((w : ℚ) / (h : ℚ)))
          (fun n => |(w : ℚ) / (h : ℚ) - (n : ℚ) / (bh : ℚ)|)).toNat : ℕ) : ℚ) =
          ((roundAspect ((bh : ℚ) * ((w : ℚ) / (h : ℚ)))
          (fun n => |(w : ℚ) / (h : ℚ) - (n : ℚ) / (bh : ℚ)|) : ℤ) : ℚ) := by
        exact_mod_cast Int.toNat_of_nonneg (le_trans zero_le_one hr1)
      rw [hcast]
      exact roundAspect_close _ _ hqpos
    · -- height clamped to the aspect, width to the bound
      have hbr' : (bw : ℚ) / (bh : ℚ) < (w : ℚ) / (h : ℚ) := lt_of_not_le hbr
      have hqpos : 0 < (bw : ℚ) / ((w : ℚ) / (h : ℚ)) := div_pos hbwQ hA
      have hqle : (bw : ℚ) / ((w : ℚ) / (h : ℚ)) ≤ (bh : ℚ) := by
        have h1 : (bw : ℚ) < ((w : ℚ) / (h : ℚ)) * (bh : ℚ) :=
          (div_lt_iff₀ hbhQ).mp hbr'
        exact le_of_lt ((div_lt_iff₀ hA).mpr (by linarith))
      have hr1 := roundAspect_ge_one ((bw : ℚ) / ((w : ℚ) / (h : ℚ)))
        (fun n => if n = 0 then 0 else |(w : ℚ) / (h : ℚ) - (bw : ℚ) / (n : ℚ)|)
      have hrle := roundAspect_le ((bw : ℚ) / ((w : ℚ) / (h : ℚ)))
        (fun n => if n = 0 then 0 else |(w : ℚ) / (h : ℚ) - (bw : ℚ) / (n : ℚ)|)
        (B := (bh : ℤ)) (by exact_mod_cast hqle) (by exact_mod_cast hbh)
      refine ⟨le_refl bw, by exact_mod_cast Int.toNat_le.mpr hrle,
        fun h1 h2 => absurd ⟨h1, h2⟩ hfit, Or.inr (Or.inr ⟨rfl, ?_⟩)⟩
      have hcast : (((roundAspect ((bw : ℚ) / ((w : ℚ) / (h : ℚ)))
          (fun n => if n = 0 then 0
            else |(w : ℚ) / (h : ℚ) - (bw : ℚ) / (n : ℚ)|)).toNat : ℕ) : ℚ) =
          ((roundAspect ((bw : ℚ) / ((w : ℚ) / (h : ℚ)))
          (fun n => if n = 0 then 0
            else |(w : ℚ) / (h : ℚ) - (bw : ℚ) / (n : ℚ)|) : ℤ) : ℚ) := by
        exact_mod_cast Int.toNat_of_nonneg (le_trans zero_le_one hr1)
      rw [hcast]
      have heq : (bw : ℚ) / ((w : ℚ) / (h : ℚ)) = (bw : ℚ) * ((h : ℚ) / (w : ℚ)) := by
        rw [div_div_eq_mul_div, mul_div_assoc]
      rw [← heq]
      exact roundAspect_close _ _ hqpos
  have h700 : thumbnailSize 700 1000 256 180 = (126, 180) := by
    unfold thumbnailSize
    rw [if_neg (by decide), if_pos (by norm_num)]
    have hq : ((180 : ℕ) : ℚ) * (((700 : ℕ) : ℚ) / ((1000 : ℕ) : ℚ)) =
        (126 : ℚ) := by
      push_cast
      norm_num
    rw [roundAspect, hq]
    have hfloor : ⌊(126 : ℚ)⌋ = 126 := by norm_num
    have hceil : ⌈(126 : ℚ)⌉ = 126 := by norm_num
    rw [hfloor, hceil, ite_self]
    norm_num
    decide
  refine ⟨main, ?_, h700, by rw [h700]; decide⟩
  intro rows bw bh h1 h2 h3 h4
  have := main (shape rows).2 (shape rows).1 bw bh h2 h1 h3 h4
  exact ⟨this.2.1, this.1⟩

/-- Witness for C6 at the sample-raster dimensions `700 × 1000` under
the bound `(256, 180)`. -/
theorem downsample_fit_spec_witness :
    (1 ≤ 700 ∧ 1 ≤ 1000 ∧ 1 ≤ 256 ∧ 1 ≤ 180) ∧
    ((thumbnailSize 700 1000 256 180).1 ≤ 256 ∧
      (thumbnailSize 700 1000 256 180).2 ≤ 180 ∧
      (700 ≤ 256 → 1000 ≤ 180 → thumbnailSize 700 1000 256 180 = (700, 1000)) ∧
      (thumbnailSize 700 1000 256 180 = (700, 1000) ∨
        ((thumbnailSize 700 1000 256 180).2 = 180 ∧
          |((thumbnailSize 700 1000 256 180).1 : ℚ) -
            (180 : ℚ) * (((700 : ℕ) : ℚ) / ((1000 : ℕ) : ℚ))| ≤ 1) ∨
        ((thumbnailSize 700 1000 256 180).1 = 256 ∧
          |((thumbnailSize 700 1000 256 180).2 : ℚ) -
            (256 : ℚ) * (((1000 : ℕ) : ℚ) / ((700 : ℕ) : ℚ))| ≤ 1))) :=
  ⟨⟨by decide, by decide, by decide, by decide⟩,
   downsample_fit_spec.1 700 1000 256 180
     (by decide) (by decide) (by decide) (by decide)⟩

/-! ## Facts about the pipeline driver (C2) -/

lemma driverRun_eq (img : GRDImage) (fmt : String) (size : ℕ × ℕ)
    (nd : NDArray) (cal : List (List ℝ))
    (hna : normalizeArray fmt img.data = .ok nd)
    (hca : calibrateArray img.calibration_factor nd.rows = .ok cal) :
    driverRun img fmt size =
      .ok ⟨nd.rows, cal, downsampleShape cal size, save_as_pngR cal⟩ := by
  unfold driverRun
  simp only [hna, hca]

lemma driverRun_err_norm {img : GRDImage} {fmt : String} (size : ℕ × ℕ)
    {e : Err} (hna : normalizeArray fmt img.data = .error e) :
    driverRun img fmt size = .error e := by
  unfold driverRun
  rw [hna]

lemma driverRun_err_calib {img : GRDImage} {fmt : String} (size : ℕ × ℕ)
    {nd : NDArray} {e : Err} (hna : normalizeArray fmt img.data = .ok nd)
    (hca : calibrateArray img.calibration_factor nd.rows = .error e) :
    driverRun img fmt size = .error e := by
  unfold driverRun
  simp only [hna, hca]

lemma norm_imgC : normalizeArray "0-1" imgC.data =
    .ok ⟨[[0, 1], [1, 0]], .float32⟩ := by
  rw [normalizeArray_01]
  have hmn : arrMin imgC.data.rows = 0 := by decide
  have hmx : arrMax imgC.data.rows = 1 := by decide
  rw [hmn, hmx]
  norm_num [imgC, norm01]

lemma calib_imgC :
    calibrateArray imgC.calibration_factor [[(0 : ℚ), 1], [1, 0]] = .ok calC := by
  unfold calibrateArray
  rw [if_neg (by decide), calibAdjust_id (by decide) (by decide)]
  rfl

lemma thumb2211 : thumbnailSize 2 2 1 1 = (1, 1) := by
  unfold thumbnailSize
  rw [if_neg (by decide), if_pos (by norm_num)]
  have hq : ((1 : ℕ) : ℚ) * (((2 : ℕ) : ℚ) / ((2 : ℕ) : ℚ)) = (1 : ℚ) := by
    push_cast
    norm_num
  rw [roundAspect, hq]
  have hfloor : ⌊(1 : ℚ)⌋ = 1 := by norm_num
  have hceil : ⌈(1 : ℚ)⌉ = 1 := by norm_num
  rw [hfloor, hceil, ite_self]
  decide

lemma ds_calC : downsampleShape calC (1, 1) = (1, 1) := by
  unfold downsampleShape
  have hshape : shape calC = (2, 2) := rfl
  rw [hshape]
  rw [show ((2, 2) : ℕ × ℕ).2 = 2 from rfl, show ((2, 2) : ℕ × ℕ).1 = 2 from rfl,
    show ((1, 1) : ℕ × ℕ).1 = 1 from rfl, show ((1, 1) : ℕ × ℕ).2 = 1 from rfl,
    thumb2211]

lemma driverRun_imgC : driverRun imgC "0-1" (1, 1) = .ok runC := by
  rw [driverRun_eq imgC "0-1" (1, 1) ⟨[[0, 1], [1, 0]], .float32⟩ calC
    norm_imgC calib_imgC]
  rw [ds_calC]
  rfl

/-- C2 counterexample: on `imgC` (a 2×2 source) with bound `(1, 1)` the
driver's `downsample` stage returns a `1×1` array, but the PNG written by
`save_as_png` has the full `2×2` shape of the calibrated data — `data`
was never reassigned to the downsample output (`downsample` only returns
it and `main` discards the return value). -/
theorem pipeline_save_counterexample :
    driverRun imgC "0-1" (1, 1) = .ok runC ∧
    shape runC.saved.pixels = (2, 2) ∧
    runC.thumbShape = (1, 1) ∧
    shape runC.saved.pixels ≠ runC.thumbShape := by
  exact ⟨driverRun_imgC, rfl, rfl, by decide⟩

/-- C2 amended: `normalize` and `calibrate` do reassign `data` to their
outputs, but `downsample` returns its output without reassigning `data`;
consequently the array serialized by `save_as_png` is the calibrated
(pre-downsample) array — same shape as the calibration output — and not
the downsampled array, whose shape is only returned to (and discarded
by) the caller. -/
theorem pipeline_data_flow_spec (img : GRDImage) (fmt : String)
    (size : ℕ × ℕ) (r : RunResult) (hr : driverRun img fmt size = .ok r) :
    (∃ nd : NDArray, normalizeArray fmt img.data = .ok nd ∧
      r.normData = nd.rows) ∧
    calibrateArray img.calibration_factor r.normData = .ok r.calData ∧
    r.saved = save_as_pngR r.calData ∧
    shape r.saved.pixels = shape r.calData ∧
    r.thumbShape = downsampleShape r.calData size := by
  cases hna : normalizeArray fmt img.data with
  | error e =>
    rw [driverRun_err_norm size hna] at hr
    cases hr
  | ok nd =>
    cases hca : calibrateArray img.calibration_factor nd.rows with
    | error e =>
      rw [driverRun_err_calib size hna hca] at hr
      cases hr
    | ok cal =>
      rw [driverRun_eq img fmt size nd cal hna hca] at hr
      injection hr with hr
      subst hr
      exact ⟨⟨nd, rfl, rfl⟩, hca, rfl,
        shape_map_map toUint8R cal, rfl⟩

/-- Witness for C2 (amended) at the concrete run on `imgC`. -/
theorem pipeline_data_flow_spec_witness :
    driverRun imgC "0-1" (1, 1) = .ok runC ∧
    runC.saved = save_as_pngR runC.calData ∧
    shape runC.saved.pixels = shape runC.calData ∧
    runC.thumbShape = downsampleShape runC.calData (1, 1) :=
  ⟨driverRun_imgC,
   (pipeline_data_flow_spec imgC "0-1" (1, 1) runC driverRun_imgC).2.2.1,
   (pipeline_data_flow_spec imgC "0-1" (1, 1) runC driverRun_imgC).2.2.2.1,
   (pipeline_data_flow_spec imgC "0-1" (1, 1) runC driverRun_imgC).2.2.2.2⟩
